import Mathlib

/-!
Verification of the gateway repository's core logic against its
natural-language specification.

The development shallowly embeds the three Python source files:

* `TerraformDeploy` — `src/terraform_deploy.py`: the error classifier
  (`check_capacity_error`) and the retry controller (`deploy_with_retry`),
  with the external `terraform` invocations abstracted as scripted results.
* `CleanupVcns` — `src/cleanup_vcns.py`: the teardown procedure
  (`delete_vcn_resources`), with the cloud API abstracted as an environment
  supplying resource listings and per-call delete outcomes.
* `MainPoller` — `src/main.py`: the job-lifecycle poller, with the
  Resource Manager job API abstracted as a script of job runs.

String operations are carried out on character lists so that all
definitions reduce in the kernel.
-/

/-- Decides whether `needle` occurs at the start of `haystack`
(character lists).  Building block of Python-style substring search. -/
def isPrefixChars : List Char → List Char → Bool
  | [], _ => true
  | _ :: _, [] => false
  | a :: as, b :: bs => a == b && isPrefixChars as bs

/-- Decides whether `needle` occurs anywhere inside `haystack`
(character lists). -/
def hasSubChars (needle : List Char) : List Char → Bool
  | [] => isPrefixChars needle []
  | c :: cs => isPrefixChars needle (c :: cs) || hasSubChars needle cs

/-- `strContains haystack needle` mirrors Python's `needle in haystack`
on strings. -/
def strContains (haystack needle : String) : Bool :=
  hasSubChars needle.toList haystack.toList

/-- The character list of `s` lowercased; mirrors Python's `s.lower()`
on the ASCII strings this program handles. -/
def lowerChars (s : String) : List Char :=
  s.toList.map Char.toLower

/-- Case-insensitive `strContains`: `needle.lower() in haystack.lower()`. -/
def strContainsCI (haystack needle : String) : Bool :=
  hasSubChars (lowerChars needle) (lowerChars haystack)

/-- `startsWithStr s p` mirrors Python's `s.startswith(p)` (case-sensitive). -/
def startsWithStr (s p : String) : Bool :=
  isPrefixChars p.toList s.toList

/-- Whitespace test used by `trimChars`; mirrors the characters Python's
`str.strip()` removes. -/
def isSpaceChar (c : Char) : Bool :=
  c == ' ' || c == '\t' || c == '\n' || c == '\r' || c == '\x0b' || c == '\x0c'

/-- Removes leading and trailing whitespace; mirrors Python's `str.strip()`. -/
def trimChars (cs : List Char) : List Char :=
  ((cs.dropWhile isSpaceChar).reverse.dropWhile isSpaceChar).reverse

/-- Splits a character list at every newline; mirrors Python's
`s.split('\n')` (always returns one more part than there are newlines). -/
def splitLinesChars : List Char → List (List Char)
  | [] => [[]]
  | c :: cs =>
    if c == '\n' then [] :: splitLinesChars cs
    else
      match splitLinesChars cs with
      | [] => [[c]]
      | l :: ls => (c :: l) :: ls

namespace TerraformDeploy

/-- The capacity indicators of `TerraformDeployer.check_capacity_error`. -/
def capacity_indicators : List String :=
  ["Out of host capacity",
   "OutOfHostCapacity",
   "insufficient capacity",
   "no capacity",
   "CannotAttachVolume"]

/-- The non-capacity (service-limit) indicators of
`TerraformDeployer.check_capacity_error`. -/
def non_capacity_indicators : List String :=
  ["vcn-count",
   "limit exceeded",
   "quota exceeded",
   "LimitExceeded"]

/-- `" ".join(errors) + " " + stderr` from `check_capacity_error`. -/
def allErrorText (errors : List String) (stderr : String) : String :=
  String.intercalate " " errors ++ " " ++ stderr

/-- Case-insensitive indicator match:
`indicator.lower() in all_error_text.lower()`. -/
def indicatorMatches (errors : List String) (stderr : String) (indicator : String) : Bool :=
  strContainsCI (allErrorText errors stderr) indicator

/-- `TerraformDeployer.check_capacity_error`: `true` means retryable
capacity error; `false` means service-limit or unrecognized (fatal) error.
The non-capacity loop runs first and short-circuits. -/
def check_capacity_error (errors : List String) (stderr : String) : Bool :=
  if non_capacity_indicators.any (indicatorMatches errors stderr) then
    false
  else if capacity_indicators.any (indicatorMatches errors stderr) then
    true
  else
    false

/-- The spec's `ErrorClassification` categories (§3); `Unknown` never
arises from this classifier and is omitted. -/
inductive ErrorClassification where
  | Capacity
  | ServiceLimit
  | Fatal
  deriving DecidableEq

/-- The classification implicit in `check_capacity_error` together with the
branch taken by `deploy_with_retry`: the non-capacity loop returning `False`
with a service-limit warning is `ServiceLimit`, the capacity loop returning
`True` is `Capacity`, and the final `return False` is `Fatal`. -/
def classify_error (errors : List String) (stderr : String) : ErrorClassification :=
  if non_capacity_indicators.any (indicatorMatches errors stderr) then
    .ServiceLimit
  else if capacity_indicators.any (indicatorMatches errors stderr) then
    .Capacity
  else
    .Fatal

/-- One result of `apply_terraform`: the process return code, the
`@level == "error"` messages parsed from the JSON-lines stdout, and the raw
stderr text. -/
structure ApplyResult where
  returncode : Int
  errors : List String
  stderr : String
  deriving DecidableEq

/-- How one run of `deploy_with_retry` ends.  `Succeeded` is the
`returncode == 0` break, `Aborted` the non-capacity-error break,
`Cancelled` the `KeyboardInterrupt` break during the backoff sleep, and
`OutOfScript` means the scripted apply results were exhausted while the
(unbounded) loop would have continued. -/
inductive DeployOutcome where
  | Succeeded
  | Aborted
  | Cancelled
  | OutOfScript
  deriving DecidableEq

/-- Observable trace of one `deploy_with_retry` run: final value of
`self.attempt`, number of backoff sleeps started, number of
`cleanup_failed_deployment` calls, number of `apply_terraform` calls, the
outcome, and the diagnostic (errors, stderr) surfaced on abort. -/
structure RetryTrace where
  attempts : Nat
  sleeps : Nat
  cleanups : Nat
  applies : Nat
  outcome : DeployOutcome
  surfaced : Option (List String × String)
  deriving DecidableEq

/-- The `while True` loop of `deploy_with_retry`, driven by a script of
apply results; `n` is the value of `self.attempt` before the iteration,
and `interrupted k` tells whether the backoff sleep of attempt `k` is cut
short by `KeyboardInterrupt`. -/
def deployLoop (interrupted : Nat → Bool) : List ApplyResult → Nat → RetryTrace
  | [], n => ⟨n, 0, 0, 0, .OutOfScript, none⟩
  | r :: rest, n =>
    if r.returncode == 0 then
      ⟨n + 1, 0, 0, 1, .Succeeded, none⟩
    else if check_capacity_error r.errors r.stderr then
      if interrupted (n + 1) then
        ⟨n + 1, 1, 1, 1, .Cancelled, none⟩
      else
        let t := deployLoop interrupted rest (n + 1)
        ⟨t.attempts, t.sleeps + 1, t.cleanups + 1, t.applies + 1, t.outcome, t.surfaced⟩
    else
      ⟨n + 1, 0, 0, 1, .Aborted, some (r.errors, r.stderr)⟩

/-- `TerraformDeployer.deploy_with_retry`'s retry loop, starting from
`self.attempt = 0` (init and validate are modelled in `mainExitCode`). -/
def deploy_with_retry (interrupted : Nat → Bool) (script : List ApplyResult) : RetryTrace :=
  deployLoop interrupted script 0

/-- External outcomes that determine the process exit status of
`terraform_deploy.main`: whether `.terraform` already exists (init is then
skipped), whether `terraform init` / `terraform validate` / the
`terraform plan` steps succeed, the scripted apply results, and the
interrupt schedule. -/
structure ProcessEnv where
  alreadyInitialized : Bool
  initOk : Bool
  validateOk : Bool
  planOk : Bool
  script : List ApplyResult
  interrupted : Nat → Bool

/-- Whether `init_terraform` calls `sys.exit(1)`: only when init actually
runs (no prior `.terraform` directory) and fails. -/
def initExits (env : ProcessEnv) : Bool :=
  !env.alreadyInitialized && !env.initOk

/-- Exit status of `terraform_deploy.main` around `deploy_with_retry`:
`init_terraform` and `validate_terraform` (both its `terraform validate`
and `terraform plan` checks) call `sys.exit(1)` on failure; a completed
retry loop returns normally from `deploy_with_retry`, so `main` finishes
and the process exits with status 0.  `none` models a run that never
terminates (script exhausted with the loop still going). -/
def mainExitCode (env : ProcessEnv) : Option Nat :=
  if initExits env then some 1
  else if !env.validateOk then some 1
  else if !env.planOk then some 1
  else
    match (deploy_with_retry env.interrupted env.script).outcome with
    | .OutOfScript => none
    | _ => some 0

/-- A scripted run for C6: all preliminary checks pass and the single
apply attempt fails with a service-limit error. -/
def c6Env : ProcessEnv where
  alreadyInitialized := true
  initOk := true
  validateOk := true
  planOk := true
  script := [⟨1, ["Error: vcn-count limit exceeded"], ""⟩]
  interrupted := fun _ => false

end TerraformDeploy

namespace CleanupVcns

/-- A compute instance as used by `delete_vcn_resources`. -/
structure OciInstance where
  id : String
  displayName : String
  lifecycleState : String
  deriving DecidableEq

/-- A VNIC attachment; `subnetId = none` models a falsy `subnet_id`. -/
structure VnicAttachment where
  subnetId : Option String
  deriving DecidableEq

/-- A subnet as used by `delete_vcn_resources`. -/
structure OciSubnet where
  id : String
  displayName : String
  lifecycleState : String
  vcnId : String
  deriving DecidableEq

/-- A route table, security list or gateway as used by
`delete_vcn_resources`. -/
structure OciResource where
  id : String
  displayName : String
  lifecycleState : String
  deriving DecidableEq

/-- One delete call issued to the network client, tagged by resource type. -/
inductive DeleteCall where
  | subnet (id : String)
  | routeTable (id : String)
  | securityList (id : String)
  | internetGateway (id : String)
  | natGateway (id : String)
  | serviceGateway (id : String)
  | vcn (id : String)
  deriving DecidableEq

/-- The cloud state seen by one `delete_vcn_resources` run: the listings
returned by the list calls, subnet lookup (`none` models `get_subnet`
raising, which the code swallows with `except: pass`), and whether each
delete call succeeds (`false` models the delete raising, which the code
logs and skips). -/
structure CloudEnv where
  instances : List OciInstance
  vnicAttachments : String → List VnicAttachment
  getSubnet : String → Option OciSubnet
  subnets : List OciSubnet
  routeTables : List OciResource
  securityLists : List OciResource
  internetGateways : List OciResource
  natGateways : List OciResource
  serviceGateways : List OciResource
  deleteOk : DeleteCall → Bool
  deleteVcnOk : Bool

/-- Step 1's inner test: an attachment blocks the teardown when its subnet
id is set, the subnet lookup succeeds, the subnet belongs to the target
VCN, and the instance is not terminated.  A failed lookup falls into
`except: pass` and never blocks. -/
def attachmentBlocks (env : CloudEnv) (vcnId : String) (inst : OciInstance)
    (va : VnicAttachment) : Bool :=
  match va.subnetId with
  | none => false
  | some sid =>
    match env.getSubnet sid with
    | none => false
    | some subnet => subnet.vcnId == vcnId && inst.lifecycleState != "TERMINATED"

/-- Step 1 of `delete_vcn_resources`: scan all instances and their VNIC
attachments; any blocking attachment makes the whole run return `False`
before any deletion. -/
def livenessBlocked (env : CloudEnv) (vcnId : String) : Bool :=
  env.instances.any fun inst =>
    (env.vnicAttachments inst.id).any (attachmentBlocks env vcnId inst)

/-- Deletion guard for subnets and gateways: skip terminated resources. -/
def activeRes (lifecycleState : String) : Bool :=
  lifecycleState != "TERMINATED"

/-- Deletion guard for route tables and security lists: skip terminated
resources and any whose display name starts with `"Default"`. -/
def nonDefaultDeletable (r : OciResource) : Bool :=
  r.lifecycleState != "TERMINATED" && !(startsWithStr r.displayName "Default")

/-- Steps 2–7: the child delete calls issued, in the fixed source order
subnets, route tables, security lists, internet gateways, NAT gateways,
service gateways. -/
def childCalls (env : CloudEnv) : List DeleteCall :=
  (env.subnets.filter (fun s => activeRes s.lifecycleState)).map (fun s => .subnet s.id)
    ++ (env.routeTables.filter nonDefaultDeletable).map (fun r => .routeTable r.id)
    ++ (env.securityLists.filter nonDefaultDeletable).map (fun r => .securityList r.id)
    ++ (env.internetGateways.filter (fun r => activeRes r.lifecycleState)).map
      (fun r => .internetGateway r.id)
    ++ (env.natGateways.filter (fun r => activeRes r.lifecycleState)).map
      (fun r => .natGateway r.id)
    ++ (env.serviceGateways.filter (fun r => activeRes r.lifecycleState)).map
      (fun r => .serviceGateway r.id)

/-- The `deleted_resources` tags accumulated by the run: one
`"type:display_name"` entry per child delete call that succeeded. -/
def deletedTags (env : CloudEnv) : List String :=
  ((env.subnets.filter (fun s => activeRes s.lifecycleState)).filter
      (fun s => env.deleteOk (.subnet s.id))).map (fun s => "subnet:" ++ s.displayName)
    ++ ((env.routeTables.filter nonDefaultDeletable).filter
      (fun r => env.deleteOk (.routeTable r.id))).map (fun r => "route_table:" ++ r.displayName)
    ++ ((env.securityLists.filter nonDefaultDeletable).filter
      (fun r => env.deleteOk (.securityList r.id))).map (fun r => "security_list:" ++ r.displayName)
    ++ ((env.internetGateways.filter (fun r => activeRes r.lifecycleState)).filter
      (fun r => env.deleteOk (.internetGateway r.id))).map (fun r => "igw:" ++ r.displayName)
    ++ ((env.natGateways.filter (fun r => activeRes r.lifecycleState)).filter
      (fun r => env.deleteOk (.natGateway r.id))).map (fun r => "nat:" ++ r.displayName)
    ++ ((env.serviceGateways.filter (fun r => activeRes r.lifecycleState)).filter
      (fun r => env.deleteOk (.serviceGateway r.id))).map (fun r => "sgw:" ++ r.displayName)

/-- Observable outcome of one `delete_vcn_resources` run: the returned
boolean, whether the run was blocked by the liveness check, every delete
call issued in order, the `deleted_resources` tags, and whether the
settling sleep ran (`deleted_resources` non-empty). -/
structure TeardownResult where
  success : Bool
  blocked : Bool
  deleteCalls : List DeleteCall
  deletedResources : List String
  settled : Bool
  deriving DecidableEq

/-- `cleanup_vcns.delete_vcn_resources`: liveness check first (blocked
runs issue no delete call at all and return `False`); otherwise all child
delete calls in the fixed order, then the VCN delete, whose outcome alone
is the returned boolean. -/
def delete_vcn_resources (env : CloudEnv) (vcnId : String) : TeardownResult :=
  if livenessBlocked env vcnId then
    ⟨false, true, [], [], false⟩
  else
    ⟨env.deleteVcnOk, false, childCalls env ++ [.vcn vcnId], deletedTags env,
      !(deletedTags env).isEmpty⟩

/-- `env` with the child delete outcomes replaced by `f`. -/
def withDeleteOk (env : CloudEnv) (f : DeleteCall → Bool) : CloudEnv :=
  { env with deleteOk := f }

/-- Target VCN id used by the concrete scenarios. -/
def exVcnId : String := "ocid1.vcn.oc1..gateway"

/-- C1 scenario: one running instance attached via a subnet of the target
VCN. -/
def c1Env : CloudEnv where
  instances := [⟨"inst1", "gateway-host", "RUNNING"⟩]
  vnicAttachments := fun i => if i == "inst1" then [⟨some "sub1"⟩] else []
  getSubnet := fun s =>
    if s == "sub1" then some ⟨"sub1", "gateway-subnet", "AVAILABLE", exVcnId⟩ else none
  subnets := [⟨"sub1", "gateway-subnet", "AVAILABLE", exVcnId⟩]
  routeTables := [⟨"rt1", "gateway-rt", "AVAILABLE"⟩]
  securityLists := [⟨"sl1", "gateway-sl", "AVAILABLE"⟩]
  internetGateways := []
  natGateways := []
  serviceGateways := []
  deleteOk := fun _ => true
  deleteVcnOk := true

/-- C3 scenario: no instances; one subnet, one non-default route table plus
one default-named route table, one security list. -/
def c3Env : CloudEnv where
  instances := []
  vnicAttachments := fun _ => []
  getSubnet := fun _ => none
  subnets := [⟨"sub1", "gateway-subnet", "AVAILABLE", exVcnId⟩]
  routeTables :=
    [⟨"rtDef", "Default Route Table for gateway-vcn", "AVAILABLE"⟩,
     ⟨"rt1", "gateway-rt", "AVAILABLE"⟩]
  securityLists := [⟨"sl1", "gateway-sl", "AVAILABLE"⟩]
  internetGateways := []
  natGateways := []
  serviceGateways := []
  deleteOk := fun _ => true
  deleteVcnOk := true

/-- C9 scenario: one running instance attached via subnet id `"ghost"`,
whose lookup raises (`getSubnet` returns `none` everywhere). -/
def c9Env : CloudEnv where
  instances := [⟨"inst1", "gateway-host", "RUNNING"⟩]
  vnicAttachments := fun i => if i == "inst1" then [⟨some "ghost"⟩] else []
  getSubnet := fun _ => none
  subnets := []
  routeTables := []
  securityLists := []
  internetGateways := []
  natGateways := []
  serviceGateways := []
  deleteOk := fun _ => true
  deleteVcnOk := true

/-- C10 scenario: a default-named and a lowercase-`default`-named route
table, and a default-named security list. -/
def c10Env : CloudEnv where
  instances := []
  vnicAttachments := fun _ => []
  getSubnet := fun _ => none
  subnets := []
  routeTables :=
    [⟨"rtDef", "Default Route Table for gateway-vcn", "AVAILABLE"⟩,
     ⟨"rt2", "default-rt", "AVAILABLE"⟩]
  securityLists := [⟨"slDef", "Default Security List for gateway-vcn", "AVAILABLE"⟩]
  internetGateways := []
  natGateways := []
  serviceGateways := []
  deleteOk := fun _ => true
  deleteVcnOk := true

end CleanupVcns

namespace MainPoller

/-- The terminal job states of `main.py`. -/
def terminal_states : List String := ["SUCCEEDED", "FAILED", "CANCELED"]

/-- One scripted job run: the lifecycle state reported by the creation
response, the states reported by the successive `get_job` polls, and the
log content `get_job_logs_content` would return. -/
structure JobRun where
  initialState : String
  polls : List String
  logContent : String
  deriving DecidableEq

/-- The inner polling loop: sleep, `get_job`, test against
`terminal_states`; returns the terminal state found together with the
number of `get_job` calls made, or `none` when the scripted polls run out
with the loop still going.  The creation response's state is logged but
never tested, exactly as in the source. -/
def pollJob : List String → Nat → Option (String × Nat)
  | [], _ => none
  | s :: rest, n =>
    if terminal_states.contains s then some (s, n + 1)
    else pollJob rest (n + 1)

/-- The `[INFO] Error:` extraction of `main.py`: keep every line of the
log containing the marker, stripped, in original order. -/
def extractErrorLines (logs : String) : List String :=
  ((splitLinesChars logs.toList).filter
      (fun l => hasSubChars "[INFO] Error:".toList l)).map (fun l => ⟨trimChars l⟩)

/-- Observable outcome of `main.py`'s nested loops: number of
`create_job` submissions, number of status queries (each `create_job`
response and each `get_job` response reports a lifecycle state), number of
`get_job_logs_content` fetches, the state that ended the run (`none` when
the script ran out), and the extracted error lines. -/
structure MainOutcome where
  submissions : Nat
  statusQueries : Nat
  logFetches : Nat
  result : Option String
  errorLines : List String
  deriving DecidableEq

/-- `main.py`'s outer loop over a script of job runs: each iteration
submits a job and polls it; `FAILED` fetches the log, extracts the error
lines and continues the outer loop with a fresh submission; `SUCCEEDED`
and `CANCELED` return from `main`. -/
def mainLoop : List JobRun → MainOutcome
  | [] => ⟨0, 0, 0, none, []⟩
  | run :: rest =>
    match pollJob run.polls 0 with
    | none => ⟨1, 1 + run.polls.length, 0, none, []⟩
    | some (state, gets) =>
      if state == "FAILED" then
        let sub := mainLoop rest
        ⟨sub.submissions + 1, sub.statusQueries + 1 + gets, sub.logFetches + 1, sub.result,
          extractErrorLines run.logContent ++ sub.errorLines⟩
      else
        ⟨1, 1 + gets, 0, some state, []⟩

end MainPoller

section Theorems

open TerraformDeploy CleanupVcns MainPoller

theorem check_capacity_error_eq_classify (errors : List String) (stderr : String) :
    check_capacity_error errors stderr = (classify_error errors stderr == .Capacity) := by
  unfold check_capacity_error classify_error
  by_cases h1 : non_capacity_indicators.any (indicatorMatches errors stderr)
  · simp [h1]
  · by_cases h2 : capacity_indicators.any (indicatorMatches errors stderr) <;>
      simp [h1, h2]

/-- C2: if the combined error text contains, case-insensitively, both a
service-limit indicator and a capacity indicator, the classifier returns
ServiceLimit (so `check_capacity_error` reports "not a retryable capacity
error"), never Capacity. -/
theorem c2_service_limit_wins (errors : List String) (stderr : String)
    (hlim : non_capacity_indicators.any (indicatorMatches errors stderr) = true)
    (_hcap : capacity_indicators.any (indicatorMatches errors stderr) = true) :
    classify_error errors stderr = .ServiceLimit ∧
    classify_error errors stderr ≠ .Capacity ∧
    check_capacity_error errors stderr = false := by
  have hc : classify_error errors stderr = .ServiceLimit := by
    unfold classify_error
    simp [hlim]
  refine ⟨hc, by simp [hc], ?_⟩
  unfold check_capacity_error
  simp [hlim]

/-- Witness for C2 at a concrete input where both indicator families occur. -/
theorem c2_service_limit_wins_witness :
    classify_error ["Error: LimitExceeded", "Out of host capacity"] "" = .ServiceLimit ∧
    classify_error ["Error: LimitExceeded", "Out of host capacity"] "" ≠ .Capacity ∧
    check_capacity_error ["Error: LimitExceeded", "Out of host capacity"] "" = false :=
  c2_service_limit_wins ["Error: LimitExceeded", "Out of host capacity"] ""
    (by decide) (by decide)

/-- C1: a non-terminated instance with a VNIC attachment whose subnet
resolves to the target VCN makes the whole teardown return the blocked
result with no delete call issued — not for any child resource and not for
the VCN itself. -/
theorem c1_live_instance_blocks_teardown (env : CloudEnv) (vcnId : String)
    (inst : OciInstance) (va : VnicAttachment) (sid : String) (subnet : OciSubnet)
    (hinst : inst ∈ env.instances)
    (hva : va ∈ env.vnicAttachments inst.id)
    (hsid : va.subnetId = some sid)
    (hsub : env.getSubnet sid = some subnet)
    (hvcn : subnet.vcnId = vcnId)
    (hlive : inst.lifecycleState ≠ "TERMINATED") :
    delete_vcn_resources env vcnId = ⟨false, true, [], [], false⟩ := by
  have hblock : livenessBlocked env vcnId = true := by
    unfold livenessBlocked
    rw [List.any_eq_true]
    refine ⟨inst, hinst, ?_⟩
    rw [List.any_eq_true]
    refine ⟨va, hva, ?_⟩
    simp only [attachmentBlocks, hsid, hsub]
    simp [hvcn, hlive]
  unfold delete_vcn_resources
  simp [hblock]

/-- Witness for C1 on the concrete blocked scenario. -/
theorem c1_live_instance_blocks_teardown_witness :
    delete_vcn_resources c1Env exVcnId = ⟨false, true, [], [], false⟩ :=
  c1_live_instance_blocks_teardown c1Env exVcnId
    ⟨"inst1", "gateway-host", "RUNNING"⟩ ⟨some "sub1"⟩ "sub1"
    ⟨"sub1", "gateway-subnet", "AVAILABLE", exVcnId⟩
    (by decide) (by decide) rfl (by decide) rfl (by decide)

/-- C3: when the liveness check passes, the delete calls are exactly those
for the non-terminated subnets, then the non-terminated non-`Default`
route tables, then the non-terminated non-`Default` security lists, then
the non-terminated internet, NAT and service gateways, in that order, and
finally the VCN itself. -/
theorem c3_fixed_delete_order (env : CloudEnv) (vcnId : String)
    (hnb : livenessBlocked env vcnId = false) :
    (delete_vcn_resources env vcnId).deleteCalls =
      (env.subnets.filter (fun s => s.lifecycleState != "TERMINATED")).map
          (fun s => DeleteCall.subnet s.id)
        ++ (env.routeTables.filter (fun r =>
            r.lifecycleState != "TERMINATED" && !(startsWithStr r.displayName "Default"))).map
          (fun r => DeleteCall.routeTable r.id)
        ++ (env.securityLists.filter (fun r =>
            r.lifecycleState != "TERMINATED" && !(startsWithStr r.displayName "Default"))).map
          (fun r => DeleteCall.securityList r.id)
        ++ (env.internetGateways.filter (fun r => r.lifecycleState != "TERMINATED")).map
          (fun r => DeleteCall.internetGateway r.id)
        ++ (env.natGateways.filter (fun r => r.lifecycleState != "TERMINATED")).map
          (fun r => DeleteCall.natGateway r.id)
        ++ (env.serviceGateways.filter (fun r => r.lifecycleState != "TERMINATED")).map
          (fun r => DeleteCall.serviceGateway r.id)
        ++ [DeleteCall.vcn vcnId] := by
  unfold delete_vcn_resources childCalls activeRes nonDefaultDeletable
  simp [hnb, List.append_assoc]

/-- Witness for C3 on the concrete scenario: three non-default child
resources and one default-named route table give exactly three child
delete calls in the fixed order, then the VCN delete. -/
theorem c3_fixed_delete_order_witness :
    (delete_vcn_resources c3Env exVcnId).deleteCalls =
      [DeleteCall.subnet "sub1", DeleteCall.routeTable "rt1",
       DeleteCall.securityList "sl1", DeleteCall.vcn exVcnId] := by
  rw [c3_fixed_delete_order c3Env exVcnId (by decide)]
  decide

/-- C4: a failed child delete never aborts the run — the issued delete
calls do not depend on which child deletes fail — and the returned boolean
is failed exactly when the liveness check blocked the run or the final VCN
delete failed, independently of the child delete outcomes. -/
theorem c4_child_failures_never_fatal (env : CloudEnv) (vcnId : String)
    (f : DeleteCall → Bool) :
    ((delete_vcn_resources env vcnId).success = false ↔
      (livenessBlocked env vcnId = true ∨ env.deleteVcnOk = false)) ∧
    (delete_vcn_resources (withDeleteOk env f) vcnId).success =
      (delete_vcn_resources env vcnId).success ∧
    (delete_vcn_resources (withDeleteOk env f) vcnId).blocked =
      (delete_vcn_resources env vcnId).blocked ∧
    (delete_vcn_resources (withDeleteOk env f) vcnId).deleteCalls =
      (delete_vcn_resources env vcnId).deleteCalls := by
  have hL : livenessBlocked (withDeleteOk env f) vcnId = livenessBlocked env vcnId := rfl
  have hC : childCalls (withDeleteOk env f) = childCalls env := rfl
  unfold delete_vcn_resources
  rw [hL, hC]
  by_cases hb : livenessBlocked env vcnId = true
  · simp [hb]
  · have hb' : livenessBlocked env vcnId = false := by simpa using hb
    simp [hb', withDeleteOk]

/-- C9: an exception while resolving an attachment's subnet is swallowed
and the attachment is treated as not matching the target VCN; if every
subnet lookup fails, even a non-terminated attached instance does not
block the teardown, and the run proceeds to delete the VCN. -/
theorem c9_failed_subnet_lookup_never_blocks (env : CloudEnv) (vcnId : String)
    (hfail : ∀ inst ∈ env.instances, ∀ va ∈ env.vnicAttachments inst.id,
      ∀ sid, va.subnetId = some sid → env.getSubnet sid = none) :
    livenessBlocked env vcnId = false ∧
    (delete_vcn_resources env vcnId).blocked = false ∧
    DeleteCall.vcn vcnId ∈ (delete_vcn_resources env vcnId).deleteCalls := by
  have hblock : livenessBlocked env vcnId = false := by
    unfold livenessBlocked
    rw [List.any_eq_false]
    intro inst hinst
    rw [Bool.not_eq_true, List.any_eq_false]
    intro va hva
    rw [Bool.not_eq_true]
    unfold attachmentBlocks
    cases hsid : va.subnetId with
    | none => rfl
    | some sid =>
      simp only []
      rw [hfail inst hinst va hva sid hsid]
  refine ⟨hblock, ?_, ?_⟩ <;>
    simp [delete_vcn_resources, hblock]

/-- Witness for C9: a running instance attached via a subnet whose lookup
fails does not block the teardown. -/
theorem c9_failed_subnet_lookup_never_blocks_witness :
    (⟨"inst1", "gateway-host", "RUNNING"⟩ : OciInstance) ∈ c9Env.instances ∧
    (livenessBlocked c9Env exVcnId = false ∧
      (delete_vcn_resources c9Env exVcnId).blocked = false ∧
      DeleteCall.vcn exVcnId ∈ (delete_vcn_resources c9Env exVcnId).deleteCalls) :=
  ⟨by decide,
   c9_failed_subnet_lookup_never_blocks c9Env exVcnId (fun _ _ _ _ _ _ => rfl)⟩

/-- C10: in an unblocked run, a route-table or security-list delete call
is issued exactly for the listed resources whose lifecycle state is not
terminated and whose display name does not start with the case-sensitive
string `"Default"` — the default/system decision is made purely from the
display name. -/
theorem c10_default_flag_is_name_only (env : CloudEnv) (vcnId : String) (i : String)
    (hnb : livenessBlocked env vcnId = false) :
    (DeleteCall.routeTable i ∈ (delete_vcn_resources env vcnId).deleteCalls ↔
      ∃ rt ∈ env.routeTables, rt.id = i ∧ rt.lifecycleState ≠ "TERMINATED" ∧
        startsWithStr rt.displayName "Default" = false) ∧
    (DeleteCall.securityList i ∈ (delete_vcn_resources env vcnId).deleteCalls ↔
      ∃ sl ∈ env.securityLists, sl.id = i ∧ sl.lifecycleState ≠ "TERMINATED" ∧
        startsWithStr sl.displayName "Default" = false) := by
  unfold delete_vcn_resources childCalls activeRes nonDefaultDeletable
  simp [hnb, List.mem_append, List.mem_map, List.mem_filter, and_assoc]
  constructor <;>
    exact ⟨fun ⟨a, hm, hl, hd, hi⟩ => ⟨a, hm, hi, hl, hd⟩,
           fun ⟨a, hm, hi, hl, hd⟩ => ⟨a, hm, hl, hd, hi⟩⟩

/-- Witness for C10: the lowercase-named route table `"default-rt"` is
delete-attempted while the `"Default ..."`-named one never is. -/
theorem c10_default_flag_is_name_only_witness :
    DeleteCall.routeTable "rt2" ∈ (delete_vcn_resources c10Env exVcnId).deleteCalls ∧
    DeleteCall.routeTable "rtDef" ∉ (delete_vcn_resources c10Env exVcnId).deleteCalls ∧
    DeleteCall.securityList "slDef" ∉ (delete_vcn_resources c10Env exVcnId).deleteCalls := by
  refine ⟨?_, by decide, by decide⟩
  exact (c10_default_flag_is_name_only c10Env exVcnId "rt2" (by decide)).1.mpr
    ⟨⟨"rt2", "default-rt", "AVAILABLE"⟩, by decide, rfl, by decide, by decide⟩

/-- C7: when the first apply attempt fails and its error text matches a
service-limit indicator, the controller records exactly one attempt and
exits Aborted with one apply call, no backoff sleep, no partial cleanup,
and the full diagnostic (captured errors and raw stderr) surfaced. -/
theorem c7_first_attempt_service_limit_aborts (r : ApplyResult) (rest : List ApplyResult)
    (interrupted : Nat → Bool)
    (hfail : r.returncode ≠ 0)
    (hlim : non_capacity_indicators.any (indicatorMatches r.errors r.stderr) = true) :
    deploy_with_retry interrupted (r :: rest) =
      ⟨1, 0, 0, 1, .Aborted, some (r.errors, r.stderr)⟩ := by
  have hcce : check_capacity_error r.errors r.stderr = false := by
    unfold check_capacity_error
    simp [hlim]
  unfold deploy_with_retry deployLoop
  simp [hfail, hcce]

/-- Witness for C7 on a one-element script with a service-limit failure. -/
theorem c7_first_attempt_service_limit_aborts_witness :
    deploy_with_retry (fun _ => false) [⟨1, ["Error: vcn-count limit exceeded"], "raw"⟩] =
      ⟨1, 0, 0, 1, .Aborted, some (["Error: vcn-count limit exceeded"], "raw")⟩ :=
  c7_first_attempt_service_limit_aborts
    ⟨1, ["Error: vcn-count limit exceeded"], "raw"⟩ [] (fun _ => false)
    (by decide) (by decide)

/-- C6 counterexample: with init, validate and plan all passing and a
single apply attempt failing with a service-limit error, the retry loop
aborts, yet the process exits with status 0 — not the non-zero status the
claim requires. -/
theorem c6_abort_exits_zero_counterexample :
    classify_error ["Error: vcn-count limit exceeded"] "" = .ServiceLimit ∧
    (deploy_with_retry c6Env.interrupted c6Env.script).outcome = .Aborted ∧
    mainExitCode c6Env = some 0 := by decide

/-- C6 amended: the process exits with status 1 exactly when terraform
init, validate or plan fails; whenever those pass and the retry loop
terminates — including an Aborted exit after a ServiceLimit or Fatal apply
failure — `deploy_with_retry` returns normally and the process exits with
status 0. -/
theorem c6_exit_status_characterization (env : ProcessEnv) :
    (mainExitCode env = some 1 ↔
      (initExits env = true ∨ env.validateOk = false ∨ env.planOk = false)) ∧
    (mainExitCode env = some 0 ↔
      (initExits env = false ∧ env.validateOk = true ∧ env.planOk = true ∧
        (deploy_with_retry env.interrupted env.script).outcome ≠ .OutOfScript)) := by
  unfold mainExitCode
  by_cases h1 : initExits env = true
  · simp [h1]
  · have h1f : initExits env = false := by simpa using h1
    by_cases h2 : env.validateOk = true
    · by_cases h3 : env.planOk = true
      · simp only [h1f, h2, h3]
        cases houtcome : (deploy_with_retry env.interrupted env.script).outcome <;>
          simp [houtcome]
      · have h3f : env.planOk = false := by simpa using h3
        simp [h1f, h2, h3f]
    · have h2f : env.validateOk = false := by simpa using h2
      simp [h1f, h2f]

/-- C5 counterexample: a run whose first job ends `FAILED` (with an
`[INFO] Error:` line in its log) is followed by a second job submission —
the outer loop of `main` continues after a failed job instead of halting. -/
theorem c5_failed_job_retried_counterexample :
    (mainLoop
      [⟨"SUBMITTED", ["FAILED"], "plan output\n  [INFO] Error: quota exceeded\ndone"⟩,
       ⟨"SUBMITTED", ["SUCCEEDED"], ""⟩]) =
      ⟨2, 4, 1, some "SUCCEEDED", ["[INFO] Error: quota exceeded"]⟩ := by decide

/-- C5 amended: when a job's polling ends in the terminal state `FAILED`,
the poller fetches the log once, surfaces the stripped `[INFO] Error:`
lines, and then unconditionally continues the outer loop with a fresh job
submission; the process halts only on `SUCCEEDED` or `CANCELED`. -/
theorem c5_failed_job_fetches_log_and_resubmits (run : JobRun) (rest : List JobRun)
    (gets : Nat)
    (hfail : pollJob run.polls 0 = some ("FAILED", gets)) :
    mainLoop (run :: rest) =
      ⟨(mainLoop rest).submissions + 1, (mainLoop rest).statusQueries + 1 + gets,
        (mainLoop rest).logFetches + 1, (mainLoop rest).result,
        extractErrorLines run.logContent ++ (mainLoop rest).errorLines⟩ := by
  conv_lhs => rw [mainLoop.eq_def]
  dsimp only
  rw [hfail]
  simp

/-- Witness for the amended C5 on a two-run script. -/
theorem c5_failed_job_fetches_log_and_resubmits_witness :
    mainLoop
      [⟨"SUBMITTED", ["RUNNING", "FAILED"], "x\n [INFO] Error: boom"⟩,
       ⟨"SUBMITTED", ["SUCCEEDED"], ""⟩] =
      ⟨2, 5, 1, some "SUCCEEDED", ["[INFO] Error: boom"]⟩ := by
  rw [c5_failed_job_fetches_log_and_resubmits
    ⟨"SUBMITTED", ["RUNNING", "FAILED"], "x\n [INFO] Error: boom"⟩
    [⟨"SUBMITTED", ["SUCCEEDED"], ""⟩] 2 (by decide)]
  decide

/-- C8: for the job-state script Submitted (creation response), Running,
Running, Succeeded (polls), the poller performs exactly 4 status queries
(the creation response plus 3 `get_job` polls), fetches no log content,
and ends with the Succeeded terminal record after one submission. -/
theorem c8_success_four_status_queries :
    mainLoop [⟨"SUBMITTED", ["RUNNING", "RUNNING", "SUCCEEDED"], ""⟩] =
      ⟨1, 4, 0, some "SUCCEEDED", []⟩ := by decide

end Theorems
